import Mathlib

/-!
Verification of the educational image service (`src/app.py`).

The program is embedded shallowly:

* Python strings become `String`; `str.lower()` becomes `strToLower`
  (ASCII lowering; the keywords involved are ASCII, where the two agree).
* The substring test `needle in hay` becomes `containsSub hay needle`.
* The global dict `image_cache` becomes an association list
  `List (String × String)` threaded explicitly through every operation;
  `hashlib.md5(url.encode()).hexdigest()` is an external library call and is
  modelled as an abstract parameter `md5hex : String → String` (the code uses
  it only as a deterministic cache key, so no property of the digest beyond
  being a function is relied on).
* `requests.get(url, timeout=10)` is modelled by a transport oracle
  `net : String → NetResult`: either a response with a status code and a byte
  body, or a raised exception.  `base64.b64encode(...).decode('utf-8')` is
  implemented concretely (`b64encode`).
* Python truthiness of `None` / strings (`not image_data`, `and subject`,
  `image_data or ""`) is modelled by `pyTruthy` on `Option String`.
* The `try/except` in `fetch_image` is modelled by giving the handler an
  `Except String ReqData` input: the `.error` case stands for any exception
  raised while obtaining and reading the request body (malformed JSON, a
  `None` body, wrongly-typed fields); the Lean functions themselves are total,
  so nothing can escape past the handler.
* `download_image` additionally reports, in `FetchOutcome.netCalls`, how many
  network requests the call performed (0 or 1): the mock-transport call
  counter the spec's testable properties refer to.
-/

namespace ImageService

/-- `isPrefixChars n h` is true iff the char list `n` is a prefix of `h`. -/
def isPrefixChars : List Char → List Char → Bool
  | [], _ => true
  | _ :: _, [] => false
  | a :: xs, b :: ys => a == b && isPrefixChars xs ys

/-- Auxiliary scan: does `needle` occur as a contiguous sublist of the
second argument? -/
def containsSubAux (needle : List Char) : List Char → Bool
  | [] => needle == []
  | c :: rest => isPrefixChars needle (c :: rest) || containsSubAux needle rest

/-- Python's substring test `needle in hay`. -/
def containsSub (hay needle : String) : Bool :=
  containsSubAux needle.data hay.data

/-- Python's `str.lower()` (ASCII letters; the catalog keywords are all
ASCII).  Defined by structural recursion over the characters so that it
reduces, unlike core's `String.toLower`. -/
def strToLower (s : String) : String :=
  String.mk (s.data.map Char.toLower)

/-- One record of the static `EDUCATIONAL_IMAGES` catalog in `src/app.py`. -/
structure ImageEntry where
  url : String
  title : String
  caption : String
  alt_text : String
  deriving DecidableEq

/-- `EDUCATIONAL_IMAGES["romeo_juliet_dicksee"]`. -/
def romeo_juliet_dicksee : ImageEntry :=
  { url := "https://upload.wikimedia.org/wikipedia/commons/thumb/e/e6/DickseeRomeoandJuliet.jpg/400px-DickseeRomeoandJuliet.jpg"
    title := "Romeo and Juliet by Frank Dicksee"
    caption := "Romeo and Juliet by Frank Dicksee (1884) - Public Domain"
    alt_text := "Famous painting of Romeo and Juliet embracing" }

/-- `EDUCATIONAL_IMAGES["romeo_juliet_waterhouse"]`. -/
def romeo_juliet_waterhouse : ImageEntry :=
  { url := "https://upload.wikimedia.org/wikipedia/commons/thumb/b/ba/John_William_Waterhouse_-_Juliet_-_1898.jpg/400px-John_William_Waterhouse_-_Juliet_-_1898.jpg"
    title := "Juliet by John William Waterhouse"
    caption := "Juliet by John William Waterhouse (1898) - Public Domain"
    alt_text := "Painting of Juliet on her balcony" }

/-- `EDUCATIONAL_IMAGES["shakespeare_portrait"]`. -/
def shakespeare_portrait : ImageEntry :=
  { url := "https://upload.wikimedia.org/wikipedia/commons/thumb/a/a2/Shakespeare.jpg/220px-Shakespeare.jpg"
    title := "William Shakespeare Portrait"
    caption := "William Shakespeare - The Bard"
    alt_text := "Portrait of William Shakespeare" }

/-- `EDUCATIONAL_IMAGES["solar_system"]`. -/
def solar_system : ImageEntry :=
  { url := "https://upload.wikimedia.org/wikipedia/commons/thumb/c/cb/Planets2013.svg/450px-Planets2013.svg.png"
    title := "Solar System Diagram"
    caption := "The Solar System - Educational Diagram"
    alt_text := "Diagram showing all planets in the solar system" }

/-- `EDUCATIONAL_IMAGES["dna_structure"]`. -/
def dna_structure : ImageEntry :=
  { url := "https://upload.wikimedia.org/wikipedia/commons/thumb/4/4c/DNA_Structure%2BKey%2BLabelled.pn_NoBB.png/220px-DNA_Structure%2BKey%2BLabelled.pn_NoBB.png"
    title := "DNA Double Helix"
    caption := "DNA Double Helix Structure"
    alt_text := "3D model of DNA double helix" }

/-- Python truthiness of an optional string: `None` and `""` are falsy,
every other string is truthy.  Used by `if not results and subject:` and by
`img["url"] if not image_data else ""` / `image_data or ""` in `src/app.py`. -/
def pyTruthy : Option String → Bool
  | none => false
  | some s => !s.isEmpty

/-- `find_relevant_images(query, subject)` from `src/app.py` (lines 72-103):
first-match keyword rules on the lower-cased query, then subject fallback
rules (entered only when `subject` is truthy, as in Python), then the
Shakespeare default. -/
def find_relevant_images (query : String) (subject : Option String) : List ImageEntry :=
  let query_lower := strToLower query
  let results : List ImageEntry :=
    if containsSub query_lower "dicksee" ||
        (containsSub query_lower "romeo" && containsSub query_lower "juliet") then
      [romeo_juliet_dicksee]
    else if containsSub query_lower "juliet" then
      [romeo_juliet_waterhouse]
    else if containsSub query_lower "shakespeare" then
      [shakespeare_portrait]
    else if containsSub query_lower "solar" || containsSub query_lower "planet" then
      [solar_system]
    else if containsSub query_lower "dna" || containsSub query_lower "genetic" then
      [dna_structure]
    else []
  let results :=
    if results.isEmpty && pyTruthy subject then
      let subject_lower := strToLower (subject.getD "")
      if containsSub subject_lower "english" || containsSub subject_lower "literature" then
        [shakespeare_portrait]
      else if containsSub subject_lower "science" || containsSub subject_lower "biology" then
        [dna_structure]
      else if containsSub subject_lower "astronomy" || containsSub subject_lower "physics" then
        [solar_system]
      else []
    else results
  if results.isEmpty then [shakespeare_portrait] else results

/-- Outcome of one `requests.get(url, timeout=10)` call: a response carrying
a status code and a byte body, or a raised exception (timeout, transport
error, anything). -/
inductive NetResult where
  | ok (status : Nat) (content : List Nat)
  | exn (msg : String)
  deriving DecidableEq

/-- The standard base64 alphabet. -/
def b64alphabet : List Char :=
  "ABCDEFGHIJKLMNOPQRSTUVWXYZabcdefghijklmnopqrstuvwxyz0123456789+/".data

/-- The base64 digit for a 6-bit value. -/
def b64char (n : Nat) : Char :=
  b64alphabet.getD n 'A'

/-- Base64 of a byte list, three input bytes per four output chars, with
`=` padding — `base64.b64encode` of Python's standard library. -/
def b64encodeBytes : List Nat → List Char
  | [] => []
  | [a] => [b64char (a / 4), b64char (a % 4 * 16), '=', '=']
  | [a, b] => [b64char (a / 4), b64char (a % 4 * 16 + b / 16), b64char (b % 16 * 4), '=']
  | a :: b :: c :: rest =>
    b64char (a / 4) :: b64char (a % 4 * 16 + b / 16) ::
      b64char (b % 16 * 4 + c / 64) :: b64char (c % 64) :: b64encodeBytes rest

/-- `base64.b64encode(content).decode('utf-8')`. -/
def b64encode (content : List Nat) : String :=
  String.mk (b64encodeBytes content)

/-- Lookup in the `image_cache` association list (Python's
`cache_key in image_cache` / `image_cache[cache_key]`). -/
def lookupCache : List (String × String) → String → Option String
  | [], _ => none
  | (k, v) :: rest, key => if k = key then some v else lookupCache rest key

/-- Result of one `download_image` call: the returned value, the cache after
the call, and how many network requests were made (0 or 1). -/
structure FetchOutcome where
  result : Option String
  cache : List (String × String)
  netCalls : Nat
  deriving DecidableEq

/-- `download_image(url)` from `src/app.py` (lines 52-70), with the global
`image_cache` passed explicitly, the MD5 digest abstracted as `md5hex` and
the transport as `net`.  Cache hit: return the stored value, no network
call.  Miss: one network call; on status 200 encode the body to base64 and,
only if the cache holds fewer than 20 records, insert it; on any other
status or on an exception return `none` and leave the cache untouched. -/
def download_image (md5hex : String → String) (net : String → NetResult)
    (url : String) (image_cache : List (String × String)) : FetchOutcome :=
  let cache_key := md5hex url
  match lookupCache image_cache cache_key with
  | some v => ⟨some v, image_cache, 0⟩
  | none =>
    match net url with
    | NetResult.exn _ => ⟨none, image_cache, 1⟩
    | NetResult.ok status content =>
      if status = 200 then
        let image_base64 := b64encode content
        if image_cache.length < 20 then
          ⟨some image_base64, (cache_key, image_base64) :: image_cache, 1⟩
        else
          ⟨some image_base64, image_cache, 1⟩
      else ⟨none, image_cache, 1⟩

/-- Python's `xs[:count]` for an arbitrary (possibly negative) integer
`count`: non-negative counts truncate from the front, negative counts keep
`len + count` elements (clamped at zero). -/
def pySlice {α : Type} (xs : List α) (count : Int) : List α :=
  xs.take (if count < 0 then ((xs.length : Int) + count).toNat else count.toNat)

/-- The parsed JSON body of a `/fetch_image` request: each field may be
absent (`data.get`). -/
structure ReqData where
  query : Option String
  subject : Option String
  count : Option Int
  deriving DecidableEq

/-- One element of the handler's `processed_images` list. -/
structure ImageResult where
  url : String
  data : String
  title : String
  educational_caption : String
  alt_text : String
  source : String
  deriving DecidableEq

/-- The JSON envelope returned by the `/fetch_image` handler. -/
structure Response where
  success : Bool
  images : List ImageResult
  error : Option String
  deriving DecidableEq

/-- The handler's download loop (`for img in images[:count]` in
`src/app.py`, lines 130-141): fetches each entry in order, threading the
cache, and assembles one `ImageResult` per entry exactly as the dict literal
does — `url` is the entry's url when `image_data` is falsy (absent or the
empty string) and `""` otherwise, `data` is `image_data or ""`. -/
def processImages (md5hex : String → String) (net : String → NetResult) :
    List ImageEntry → List (String × String) → List ImageResult × List (String × String)
  | [], image_cache => ([], image_cache)
  | img :: rest, image_cache =>
    let o := download_image md5hex net img.url image_cache
    let (others, finalCache) := processImages md5hex net rest o.cache
    ({ url := if pyTruthy o.result then "" else img.url
       data := o.result.getD ""
       title := img.title
       educational_caption := img.caption
       alt_text := img.alt_text
       source := "wikimedia" } :: others, finalCache)

/-- The `/fetch_image` handler (`src/app.py`, lines 109-153).  The
`Except.error` case models any exception raised while obtaining and reading
the request body; the surrounding `try/except` turns it into the structured
error envelope.  Otherwise: defaults (`query` → `""`, `count` → 1), resolve,
defensive empty check, truncate to `count` (Python slice semantics), fetch
and assemble. -/
def fetch_image (md5hex : String → String) (net : String → NetResult)
    (reqJson : Except String ReqData) (image_cache : List (String × String)) :
    Response × List (String × String) :=
  match reqJson with
  | Except.error e => (⟨false, [], some e⟩, image_cache)
  | Except.ok data =>
    let query := data.query.getD ""
    let subject := data.subject
    let count := data.count.getD 1
    let images := find_relevant_images query subject
    if images.isEmpty then
      (⟨false, [], some "No relevant images found"⟩, image_cache)
    else
      let (processed_images, finalCache) :=
        processImages md5hex net (pySlice images count) image_cache
      (⟨true, processed_images, none⟩, finalCache)

/-- Cache states reachable from the initial empty `image_cache` by
`download_image` calls — the only operation in `src/app.py` that mutates the
cache (the handler mutates it only through `download_image`). -/
inductive Reachable : List (String × String) → Prop where
  | init : Reachable []
  | step (md5hex : String → String) (net : String → NetResult) (url : String)
      (c : List (String × String)) : Reachable c →
      Reachable (download_image md5hex net url c).cache

/-- Every resolver call returns a one-element list, and the element is one
of the five catalog records.  Shared helper for the resolver claims. -/
theorem find_relevant_images_single (query : String) (subject : Option String) :
    ∃ e, find_relevant_images query subject = [e] ∧
      e ∈ [romeo_juliet_dicksee, romeo_juliet_waterhouse, shakespeare_portrait,
        solar_system, dna_structure] := by
  unfold find_relevant_images
  dsimp only
  split_ifs <;> first
    | exact ⟨_, rfl, by decide⟩
    | simp_all

/-- C3 as the spec states it: for every fingerprint function, transport,
location and starting cache, two consecutive `download_image` calls on the
same location perform at most one network call in total. -/
def fetchTwiceOneNetworkCall : Prop :=
  ∀ (md5hex : String → String) (net : String → NetResult) (url : String)
    (image_cache : List (String × String)),
    (download_image md5hex net url image_cache).netCalls +
      (download_image md5hex net url
        (download_image md5hex net url image_cache).cache).netCalls ≤ 1

/-- C5 as the spec states it: each assembled image result copies title,
caption and alt text from the entry, carries the constant source tag, has
`data` equal to the fetched value (or `""` on absence), and has `url` equal
to the entry's location precisely when the fetch returned absent and `""`
otherwise. -/
def resultAssemblyClaim : Prop :=
  ∀ (md5hex : String → String) (net : String → NetResult) (img : ImageEntry)
    (image_cache : List (String × String)),
    (processImages md5hex net [img] image_cache).1 =
      [{ url := match (download_image md5hex net img.url image_cache).result with
                | none => img.url
                | some _ => ""
         data := (download_image md5hex net img.url image_cache).result.getD ""
         title := img.title
         educational_caption := img.caption
         alt_text := img.alt_text
         source := "wikimedia" }]

example : containsSub (strToLower "Romeo & Juliet") "romeo" = true := by decide

example : find_relevant_images "Romeo and Juliet balcony" (some "Math") =
    [romeo_juliet_dicksee] := by decide

example : find_relevant_images "" (some "biology") = [dna_structure] := by decide

example : find_relevant_images "" none = [shakespeare_portrait] := by decide

example : b64encode [] = "" := by decide

example : b64encode [77, 97, 110] = "TWFu" := by decide

example : (download_image id (fun _ => NetResult.exn "boom") "u" []).result = none := by
  decide

example :
    fetch_image id (fun _ => NetResult.ok 200 []) (Except.ok ⟨some "shakespeare", none, none⟩) [] =
      (⟨true, [⟨shakespeare_portrait.url, "", "William Shakespeare Portrait",
        "William Shakespeare - The Bard", "Portrait of William Shakespeare", "wikimedia"⟩],
        none⟩, [(shakespeare_portrait.url, "")]) := by
  decide

/-- C1: any query whose lower-casing contains both "romeo" and "juliet" as
substrings makes the resolver return exactly the Romeo/Juliet (Dicksee)
catalog entry, for any subject, whether or not "dicksee" also occurs. -/
theorem c1_romeo_juliet_gives_dicksee (query : String) (subject : Option String)
    (hr : containsSub (strToLower query) "romeo" = true)
    (hj : containsSub (strToLower query) "juliet" = true) :
    find_relevant_images query subject = [romeo_juliet_dicksee] := by
  unfold find_relevant_images
  simp [hr, hj, pyTruthy]

/-- Witness for C1 at the query "Romeo & JULIET play" (which does not
contain "dicksee") with subject "Math". -/
theorem c1_romeo_juliet_gives_dicksee_witness :
    (containsSub (strToLower "Romeo & JULIET play") "romeo" = true ∧
      containsSub (strToLower "Romeo & JULIET play") "juliet" = true) ∧
    find_relevant_images "Romeo & JULIET play" (some "Math") = [romeo_juliet_dicksee] :=
  ⟨⟨by decide, by decide⟩,
    c1_romeo_juliet_gives_dicksee "Romeo & JULIET play" (some "Math") (by decide) (by decide)⟩

/-- C2: for every query and every optional subject the resolver returns a
list of exactly one catalog entry — never empty, never more than one. -/
theorem c2_resolver_exactly_one (query : String) (subject : Option String) :
    (find_relevant_images query subject).length = 1 ∧
      ∃ e, find_relevant_images query subject = [e] := by
  obtain ⟨e, he, -⟩ := find_relevant_images_single query subject
  exact ⟨by rw [he]; rfl, e, he⟩

/-- Equation lemma: a cache hit returns the stored value, leaves the cache
alone and makes no network call. -/
theorem download_image_hit (md5hex : String → String) (net : String → NetResult)
    (url : String) (c : List (String × String)) (v : String)
    (hl : lookupCache c (md5hex url) = some v) :
    download_image md5hex net url c = ⟨some v, c, 0⟩ := by
  unfold download_image
  dsimp only
  rw [hl]

/-- Equation lemma: cache miss plus a transport exception returns `none`
after one network call, cache untouched. -/
theorem download_image_miss_exn (md5hex : String → String) (net : String → NetResult)
    (url : String) (c : List (String × String)) (m : String)
    (hl : lookupCache c (md5hex url) = none) (hn : net url = NetResult.exn m) :
    download_image md5hex net url c = ⟨none, c, 1⟩ := by
  unfold download_image
  dsimp only
  rw [hl, hn]

/-- Equation lemma: cache miss, status 200, cache below capacity — the
base64 body is returned and inserted. -/
theorem download_image_miss_insert (md5hex : String → String) (net : String → NetResult)
    (url : String) (c : List (String × String)) (content : List Nat)
    (hl : lookupCache c (md5hex url) = none) (hn : net url = NetResult.ok 200 content)
    (hlen : c.length < 20) :
    download_image md5hex net url c =
      ⟨some (b64encode content), (md5hex url, b64encode content) :: c, 1⟩ := by
  unfold download_image
  dsimp only
  rw [hl, hn]
  simp [hlen]

/-- Equation lemma: cache miss, status 200, cache at (or past) capacity —
the base64 body is returned but not inserted. -/
theorem download_image_miss_full (md5hex : String → String) (net : String → NetResult)
    (url : String) (c : List (String × String)) (content : List Nat)
    (hl : lookupCache c (md5hex url) = none) (hn : net url = NetResult.ok 200 content)
    (hlen : ¬ c.length < 20) :
    download_image md5hex net url c = ⟨some (b64encode content), c, 1⟩ := by
  unfold download_image
  dsimp only
  rw [hl, hn]
  simp [hlen]

/-- Equation lemma: cache miss and a non-200 status returns `none` after one
network call, cache untouched. -/
theorem download_image_miss_bad_status (md5hex : String → String) (net : String → NetResult)
    (url : String) (c : List (String × String)) (status : Nat) (content : List Nat)
    (hl : lookupCache c (md5hex url) = none) (hn : net url = NetResult.ok status content)
    (hs : status ≠ 200) :
    download_image md5hex net url c = ⟨none, c, 1⟩ := by
  unfold download_image
  dsimp only
  rw [hl, hn]
  simp [hs]

/-- The cache length after a `download_image` call never exceeds 20 when it
did not before; in fact it grows only past a strict `< 20` check.  Shared
helper for the capacity claims. -/
theorem download_image_cache_length (md5hex : String → String) (net : String → NetResult)
    (url : String) (c : List (String × String)) (h : c.length ≤ 20) :
    (download_image md5hex net url c).cache.length ≤ 20 := by
  cases hl : lookupCache c (md5hex url) with
  | some v => rw [download_image_hit md5hex net url c v hl]; exact h
  | none =>
    cases hn : net url with
    | exn m => rw [download_image_miss_exn md5hex net url c m hl hn]; exact h
    | ok status content =>
      by_cases hs : status = 200
      · subst hs
        by_cases hlen : c.length < 20
        · rw [download_image_miss_insert md5hex net url c content hl hn hlen]
          simp only [List.length_cons]
          omega
        · rw [download_image_miss_full md5hex net url c content hl hn hlen]
          exact h
      · rw [download_image_miss_bad_status md5hex net url c status content hl hn hs]
        exact h

/-- Every reachable cache state holds at most 20 records. -/
theorem reachable_cache_length (c : List (String × String)) (h : Reachable c) :
    c.length ≤ 20 := by
  induction h with
  | init => simp
  | step md5hex net url c hc ih => exact download_image_cache_length md5hex net url c ih

/-- A record present in the cache is still present, with the same value,
after any `download_image` call: nothing is ever evicted or replaced. -/
theorem download_image_preserves_records (md5hex : String → String)
    (net : String → NetResult) (url : String) (c : List (String × String))
    (k v : String) (h : lookupCache c k = some v) :
    lookupCache (download_image md5hex net url c).cache k = some v := by
  cases hl : lookupCache c (md5hex url) with
  | some w => rw [download_image_hit md5hex net url c w hl]; exact h
  | none =>
    cases hn : net url with
    | exn m => rw [download_image_miss_exn md5hex net url c m hl hn]; exact h
    | ok status content =>
      by_cases hs : status = 200
      · subst hs
        by_cases hlen : c.length < 20
        · rw [download_image_miss_insert md5hex net url c content hl hn hlen]
          have hne : md5hex url ≠ k := by
            intro he
            rw [he, h] at hl
            cases hl
          simp [lookupCache, hne, h]
        · rw [download_image_miss_full md5hex net url c content hl hn hlen]
          exact h
      · rw [download_image_miss_bad_status md5hex net url c status content hl hn hs]
        exact h

/-- C3 fails on the code: when the transport raises (here a timeout on
location "u", starting from the empty cache) the first call caches nothing,
so the repeat call performs a second network call. -/
theorem c3_counterexample : ¬ fetchTwiceOneNetworkCall := by
  intro h
  exact absurd (h id (fun _ => NetResult.exn "timeout") "u" []) (by decide)

/-- C3 amended: if the first call returns a value and the cache before it
already held the fingerprint or was below capacity, then the second call is
a pure cache hit — same value, unchanged cache, zero network calls. -/
theorem c3_second_call_cached (md5hex : String → String) (net : String → NetResult)
    (url : String) (image_cache : List (String × String)) (v : String)
    (hcap : (lookupCache image_cache (md5hex url)).isSome = true ∨ image_cache.length < 20)
    (hres : (download_image md5hex net url image_cache).result = some v) :
    download_image md5hex net url (download_image md5hex net url image_cache).cache =
      ⟨some v, (download_image md5hex net url image_cache).cache, 0⟩ := by
  cases hl : lookupCache image_cache (md5hex url) with
  | some w =>
    rw [download_image_hit md5hex net url image_cache w hl] at hres ⊢
    dsimp only at hres
    injection hres with hwv
    subst hwv
    exact download_image_hit md5hex net url image_cache w hl
  | none =>
    have hlen : image_cache.length < 20 := by
      rcases hcap with h | h
      · rw [hl] at h
        cases h
      · exact h
    cases hn : net url with
    | exn m =>
      rw [download_image_miss_exn md5hex net url image_cache m hl hn] at hres
      cases hres
    | ok status content =>
      by_cases hs : status = 200
      · subst hs
        rw [download_image_miss_insert md5hex net url image_cache content hl hn hlen] at hres ⊢
        dsimp only at hres ⊢
        cases hres
        exact download_image_hit md5hex net url
          ((md5hex url, b64encode content) :: image_cache) (b64encode content)
          (by simp [lookupCache])
      · rw [download_image_miss_bad_status md5hex net url image_cache status content hl hn hs]
          at hres
        cases hres

/-- Witness for the amended C3: a successful 200-fetch of "u" on the empty
cache, followed by a repeat call served from the cache with no network
request. -/
theorem c3_second_call_cached_witness :
    ((lookupCache [] (id "u")).isSome = true ∨ ([] : List (String × String)).length < 20) ∧
    (download_image id (fun _ => NetResult.ok 200 [77]) "u" []).result = some "TQ==" ∧
    download_image id (fun _ => NetResult.ok 200 [77]) "u"
        (download_image id (fun _ => NetResult.ok 200 [77]) "u" []).cache =
      ⟨some "TQ==", (download_image id (fun _ => NetResult.ok 200 [77]) "u" []).cache, 0⟩ :=
  ⟨Or.inr (by decide), by decide,
    c3_second_call_cached id (fun _ => NetResult.ok 200 [77]) "u" [] "TQ=="
      (Or.inr (by decide)) (by decide)⟩

/-- C4: at every reachable state the cache holds at most 20 records (before
and after any `download_image` call); no stored record is ever evicted or
replaced; and once the cache is full a new distinct successful fetch still
returns its base64 data but inserts nothing, so an immediate repeat fetch of
that location performs another network call. -/
theorem c4_cache_capacity (md5hex : String → String) (net : String → NetResult)
    (url k v : String) (content : List Nat) (c : List (String × String))
    (hreach : Reachable c) :
    c.length ≤ 20 ∧
    (download_image md5hex net url c).cache.length ≤ 20 ∧
    (lookupCache c k = some v →
      lookupCache (download_image md5hex net url c).cache k = some v) ∧
    (20 ≤ c.length →
      (download_image md5hex net url c).cache = c ∧
      (lookupCache c (md5hex url) = none → net url = NetResult.ok 200 content →
        (download_image md5hex net url c).result = some (b64encode content) ∧
        (download_image md5hex net url
          (download_image md5hex net url c).cache).netCalls = 1)) := by
  have hlen := reachable_cache_length c hreach
  refine ⟨hlen, download_image_cache_length md5hex net url c hlen,
    fun h => download_image_preserves_records md5hex net url c k v h, fun hfull => ?_⟩
  have hnotlt : ¬ c.length < 20 := by omega
  constructor
  · cases hl : lookupCache c (md5hex url) with
    | some w => rw [download_image_hit md5hex net url c w hl]
    | none =>
      cases hn : net url with
      | exn m => rw [download_image_miss_exn md5hex net url c m hl hn]
      | ok status body =>
        by_cases hs : status = 200
        · subst hs
          rw [download_image_miss_full md5hex net url c body hl hn hnotlt]
        · rw [download_image_miss_bad_status md5hex net url c status body hl hn hs]
  · intro hl hn
    rw [download_image_miss_full md5hex net url c content hl hn hnotlt]
    dsimp only
    exact ⟨rfl, by
      rw [download_image_miss_full md5hex net url c content hl hn hnotlt]⟩

/-- Witness for C4 at the empty (reachable) cache with a failing transport. -/
theorem c4_cache_capacity_witness :
    Reachable ([] : List (String × String)) ∧
    (([] : List (String × String)).length ≤ 20 ∧
      (download_image id (fun _ => NetResult.exn "down") "loc" []).cache.length ≤ 20 ∧
      (lookupCache [] "k" = some "v" →
        lookupCache (download_image id (fun _ => NetResult.exn "down") "loc" []).cache "k" =
          some "v") ∧
      (20 ≤ ([] : List (String × String)).length →
        (download_image id (fun _ => NetResult.exn "down") "loc" []).cache = [] ∧
        (lookupCache [] (id "loc") = none →
          NetResult.exn "down" = NetResult.ok 200 [] →
          (download_image id (fun _ => NetResult.exn "down") "loc" []).result =
            some (b64encode []) ∧
          (download_image id (fun _ => NetResult.exn "down") "loc"
            (download_image id (fun _ => NetResult.exn "down") "loc" []).cache).netCalls = 1))) :=
  ⟨Reachable.init,
    c4_cache_capacity id (fun _ => NetResult.exn "down") "loc" "k" "v" [] [] Reachable.init⟩

/-- C7: `download_image` is a total function of its inputs (so it never
raises), and it returns `none` exactly when the fetch failed: the fingerprint
was not cached and the transport did not deliver a status-200 response
(exception, timeout or any non-200 status).  Absence is the only failure
signal visible to the caller. -/
theorem c7_absence_iff_failure (md5hex : String → String) (net : String → NetResult)
    (url : String) (image_cache : List (String × String)) :
    (download_image md5hex net url image_cache).result = none ↔
      (lookupCache image_cache (md5hex url) = none ∧
        ∀ content, net url ≠ NetResult.ok 200 content) := by
  cases hl : lookupCache image_cache (md5hex url) with
  | some w =>
    rw [download_image_hit md5hex net url image_cache w hl]
    simp [hl]
  | none =>
    cases hn : net url with
    | exn m =>
      rw [download_image_miss_exn md5hex net url image_cache m hl hn]
      simp [hl, hn]
    | ok status content =>
      by_cases hs : status = 200
      · subst hs
        by_cases hlen : image_cache.length < 20
        · rw [download_image_miss_insert md5hex net url image_cache content hl hn hlen]
          dsimp only
          exact ⟨fun h => Option.noConfusion h, fun ⟨_, hno⟩ => absurd rfl (hno content)⟩
        · rw [download_image_miss_full md5hex net url image_cache content hl hn hlen]
          dsimp only
          exact ⟨fun h => Option.noConfusion h, fun ⟨_, hno⟩ => absurd rfl (hno content)⟩
      · rw [download_image_miss_bad_status md5hex net url image_cache status content hl hn hs]
        dsimp only
        refine ⟨fun _ => ⟨rfl, fun body hbody => ?_⟩, fun _ => rfl⟩
        injection hbody with h1 h2
        exact hs h1

/-- C9: a `download_image` call that returns `none` leaves the cache exactly
as it was — a failed fetch never inserts, removes or modifies any record. -/
theorem c9_failed_fetch_preserves_cache (md5hex : String → String)
    (net : String → NetResult) (url : String) (image_cache : List (String × String))
    (h : (download_image md5hex net url image_cache).result = none) :
    (download_image md5hex net url image_cache).cache = image_cache := by
  cases hl : lookupCache image_cache (md5hex url) with
  | some w => rw [download_image_hit md5hex net url image_cache w hl]
  | none =>
    cases hn : net url with
    | exn m => rw [download_image_miss_exn md5hex net url image_cache m hl hn]
    | ok status content =>
      by_cases hs : status = 200
      · subst hs
        by_cases hlen : image_cache.length < 20
        · rw [download_image_miss_insert md5hex net url image_cache content hl hn hlen] at h
          cases h
        · rw [download_image_miss_full md5hex net url image_cache content hl hn hlen] at h
          cases h
      · rw [download_image_miss_bad_status md5hex net url image_cache status content hl hn hs]

/-- Witness for C9: a timeout on location "a" with the empty cache returns
`none` and leaves the cache empty. -/
theorem c9_failed_fetch_preserves_cache_witness :
    (download_image id (fun _ => NetResult.exn "timeout") "a" []).result = none ∧
    (download_image id (fun _ => NetResult.exn "timeout") "a" []).cache = [] :=
  ⟨by decide, c9_failed_fetch_preserves_cache id (fun _ => NetResult.exn "timeout") "a" []
    (by decide)⟩

/-- The first result assembled by the handler's download loop, written out
explicitly.  Shared helper for the response-assembly claim. -/
theorem processImages_head (md5hex : String → String) (net : String → NetResult)
    (img : ImageEntry) (rest : List ImageEntry) (image_cache : List (String × String)) :
    (processImages md5hex net (img :: rest) image_cache).1.head? =
      some { url := if pyTruthy (download_image md5hex net img.url image_cache).result then ""
                    else img.url
             data := (download_image md5hex net img.url image_cache).result.getD ""
             title := img.title
             educational_caption := img.caption
             alt_text := img.alt_text
             source := "wikimedia" } := by
  unfold processImages
  dsimp only
  rcases hp : processImages md5hex net rest (download_image md5hex net img.url image_cache).cache
    with ⟨others, fc⟩
  rfl

/-- `pyTruthy` is false exactly on the values whose `getD ""` is the empty
string: `none` and `some ""`. -/
theorem pyTruthy_eq_false_iff (o : Option String) : pyTruthy o = false ↔ o.getD "" = "" := by
  cases o with
  | none => simp [pyTruthy]
  | some s =>
    simp only [pyTruthy, Option.getD_some]
    cases hb : s.isEmpty with
    | true =>
      have hse : s = "" := (String.isEmpty_iff s).mp (by rw [hb])
      subst hse
      simp
    | false =>
      have hsne : s ≠ "" := fun he => absurd (he ▸ hb) (by decide)
      simp [hsne]

/-- `pyTruthy` is true exactly on strings other than the empty one. -/
theorem pyTruthy_eq_true_iff (o : Option String) : pyTruthy o = true ↔ o.getD "" ≠ "" := by
  constructor
  · intro h hgd
    rw [(pyTruthy_eq_false_iff o).mpr hgd] at h
    exact Bool.noConfusion h
  · intro h
    cases hb : pyTruthy o with
    | true => rfl
    | false => exact absurd ((pyTruthy_eq_false_iff o).mp hb) h

/-- C5 fails on the code: a status-200 response with an empty body makes the
fetch return the present value `""`, yet the handler's Python-truthiness
test (`if not image_data`) then sets `url` to the entry's location instead
of `""`.  Concrete input: the Shakespeare entry, empty cache, transport
returning status 200 with zero bytes. -/
theorem c5_counterexample : ¬ resultAssemblyClaim := by
  intro h
  exact absurd (h id (fun _ => NetResult.ok 200 []) shakespeare_portrait []) (by decide)

/-- C5 amended: title, caption, alt text and the source tag are as claimed
and `data` is the fetched value or `""`; but `url` equals the entry's
location exactly when the fetched value is absent **or the empty string**
(Python truthiness), and equals `""` otherwise — stated for any entry whose
location is non-empty, as all catalog entries are. -/
theorem c5_result_assembly (md5hex : String → String) (net : String → NetResult)
    (img : ImageEntry) (rest : List ImageEntry) (image_cache : List (String × String))
    (himg : img.url ≠ "") :
    ∃ r, (processImages md5hex net (img :: rest) image_cache).1.head? = some r ∧
      r.title = img.title ∧ r.educational_caption = img.caption ∧
      r.alt_text = img.alt_text ∧ r.source = "wikimedia" ∧
      r.data = (download_image md5hex net img.url image_cache).result.getD "" ∧
      (r.url = img.url ↔ (download_image md5hex net img.url image_cache).result.getD "" = "") ∧
      (r.url = "" ↔ (download_image md5hex net img.url image_cache).result.getD "" ≠ "") := by
  have hiff := pyTruthy_eq_true_iff (download_image md5hex net img.url image_cache).result
  have hiff2 := pyTruthy_eq_false_iff (download_image md5hex net img.url image_cache).result
  refine ⟨_, processImages_head md5hex net img rest image_cache,
    rfl, rfl, rfl, rfl, rfl, ?_, ?_⟩
  · cases hb : pyTruthy (download_image md5hex net img.url image_cache).result with
    | false =>
      have hgd := hiff2.mp hb
      simp [hgd]
    | true =>
      have hgd := hiff.mp hb
      simp only [if_pos, hgd, iff_false]
      intro h
      exact himg h.symm
  · cases hb : pyTruthy (download_image md5hex net img.url image_cache).result with
    | false =>
      have hgd := hiff2.mp hb
      simp only [Bool.false_eq_true, if_neg, not_false_iff, hgd, ne_eq, not_true, iff_false]
      intro h
      exact himg h
    | true =>
      have hgd := hiff.mp hb
      simp [hgd]

/-- Witness for the amended C5: the DNA entry with a failing transport and
the empty cache. -/
theorem c5_result_assembly_witness :
    dna_structure.url ≠ "" ∧
    (∃ r, (processImages id (fun _ => NetResult.exn "e") [dna_structure] []).1.head? = some r ∧
      r.title = dna_structure.title ∧ r.educational_caption = dna_structure.caption ∧
      r.alt_text = dna_structure.alt_text ∧ r.source = "wikimedia" ∧
      r.data = (download_image id (fun _ => NetResult.exn "e") dna_structure.url []).result.getD "" ∧
      (r.url = dna_structure.url ↔
        (download_image id (fun _ => NetResult.exn "e") dna_structure.url []).result.getD "" = "") ∧
      (r.url = "" ↔
        (download_image id (fun _ => NetResult.exn "e") dna_structure.url []).result.getD "" ≠ "")) :=
  ⟨by decide,
    c5_result_assembly id (fun _ => NetResult.exn "e") dna_structure [] [] (by decide)⟩

/-- C6: every exception raised while handling a request (modelled by the
`Except.error` case of the parsed body) is converted by the handler into the
structured envelope `{success := false, images := [], error := message}`,
with the cache untouched; and in general any non-success response carries an
empty image list and a present error message.  The handler itself is a total
function, so no exception can cross it. -/
theorem c6_handler_catches_all (md5hex : String → String) (net : String → NetResult)
    (e : String) (image_cache : List (String × String)) (req : Except String ReqData) :
    fetch_image md5hex net (Except.error e) image_cache =
      (⟨false, [], some e⟩, image_cache) ∧
    ((fetch_image md5hex net req image_cache).1.success = false →
      (fetch_image md5hex net req image_cache).1.images = [] ∧
      ((fetch_image md5hex net req image_cache).1.error).isSome = true) := by
  refine ⟨rfl, ?_⟩
  cases req with
  | error e2 => exact fun _ => ⟨rfl, rfl⟩
  | ok data =>
    obtain ⟨entry, he, -⟩ := find_relevant_images_single (data.query.getD "") data.subject
    unfold fetch_image
    dsimp only
    rw [he]
    simp only [List.isEmpty_cons, Bool.false_eq_true, if_neg, not_false_iff]
    rcases hp : processImages md5hex net (pySlice [entry] (data.count.getD 1)) image_cache
      with ⟨proc, fc⟩
    exact fun h => Bool.noConfusion h

/-- C8: when none of the query keyword rules fires, the resolver falls back
to the subject rules — "english"/"literature" give the Shakespeare portrait,
else "science"/"biology" give the DNA entry, else "astronomy"/"physics" give
the solar-system entry — and to the Shakespeare portrait default when no
subject rule matches either (including an absent subject). -/
theorem c8_subject_fallback (query : String) (subject : Option String)
    (h1 : containsSub (strToLower query) "dicksee" = false)
    (h2 : containsSub (strToLower query) "juliet" = false)
    (h3 : containsSub (strToLower query) "shakespeare" = false)
    (h4 : containsSub (strToLower query) "solar" = false)
    (h5 : containsSub (strToLower query) "planet" = false)
    (h6 : containsSub (strToLower query) "dna" = false)
    (h7 : containsSub (strToLower query) "genetic" = false) :
    find_relevant_images query subject =
      (match subject with
       | none => [shakespeare_portrait]
       | some s =>
         if containsSub (strToLower s) "english" || containsSub (strToLower s) "literature" then
           [shakespeare_portrait]
         else if containsSub (strToLower s) "science" || containsSub (strToLower s) "biology" then
           [dna_structure]
         else if containsSub (strToLower s) "astronomy" || containsSub (strToLower s) "physics" then
           [solar_system]
         else [shakespeare_portrait]) := by
  unfold find_relevant_images
  dsimp only
  rw [h1, h2, h3, h4, h5, h6, h7]
  cases subject with
  | none => simp [pyTruthy]
  | some s =>
    by_cases hs : s = ""
    · subst hs
      simp only [Bool.and_false, Bool.or_false, Bool.false_or]
      decide
    · have hpt : pyTruthy (some s) = true :=
        (pyTruthy_eq_true_iff (some s)).mpr (by simpa using hs)
      simp [hpt]
      split_ifs <;> simp_all

/-- Witness for C8 at query "hello" (no keyword rule fires) with subject
"Biology", which resolves to the DNA entry. -/
theorem c8_subject_fallback_witness :
    (containsSub (strToLower "hello") "dicksee" = false ∧
      containsSub (strToLower "hello") "juliet" = false ∧
      containsSub (strToLower "hello") "shakespeare" = false ∧
      containsSub (strToLower "hello") "solar" = false ∧
      containsSub (strToLower "hello") "planet" = false ∧
      containsSub (strToLower "hello") "dna" = false ∧
      containsSub (strToLower "hello") "genetic" = false) ∧
    find_relevant_images "hello" (some "Biology") =
      (match some "Biology" with
       | none => [shakespeare_portrait]
       | some s =>
         if containsSub (strToLower s) "english" || containsSub (strToLower s) "literature" then
           [shakespeare_portrait]
         else if containsSub (strToLower s) "science" || containsSub (strToLower s) "biology" then
           [dna_structure]
         else if containsSub (strToLower s) "astronomy" || containsSub (strToLower s) "physics" then
           [solar_system]
         else [shakespeare_portrait]) :=
  ⟨⟨by decide, by decide, by decide, by decide, by decide, by decide, by decide⟩,
    c8_subject_fallback "hello" (some "Biology") (by decide) (by decide) (by decide)
      (by decide) (by decide) (by decide) (by decide)⟩

/-- C10: a parsed request whose `count` is zero or negative yields
`{success := true, images := []}` — a successful response with an empty
image list — because the Python slice `images[:count]` of the single-element
resolved list is empty; the cache is untouched. -/
theorem c10_nonpositive_count (md5hex : String → String) (net : String → NetResult)
    (data : ReqData) (image_cache : List (String × String)) (k : Int)
    (hk : data.count = some k) (hk0 : k ≤ 0) :
    fetch_image md5hex net (Except.ok data) image_cache =
      (⟨true, [], none⟩, image_cache) := by
  obtain ⟨entry, he, -⟩ := find_relevant_images_single (data.query.getD "") data.subject
  unfold fetch_image
  dsimp only
  rw [he, hk]
  have hsl : pySlice [entry] ((some k).getD 1) = ([] : List ImageEntry) := by
    show pySlice [entry] k = []
    unfold pySlice
    have hz : (if k < 0 then ((([entry] : List ImageEntry).length : Int) + k).toNat
        else k.toNat) = 0 := by
      simp only [List.length_singleton]
      split_ifs <;> omega
    rw [hz]
    rfl
  rw [hsl]
  rfl

/-- Witness for C10: a "solar" query with count -2 returns success with no
images. -/
theorem c10_nonpositive_count_witness :
    ((⟨some "solar", none, some (-2)⟩ : ReqData).count = some (-2) ∧ (-2 : Int) ≤ 0) ∧
    fetch_image id (fun _ => NetResult.exn "x") (Except.ok ⟨some "solar", none, some (-2)⟩) [] =
      (⟨true, [], none⟩, []) :=
  ⟨⟨rfl, by decide⟩,
    c10_nonpositive_count id (fun _ => NetResult.exn "x") ⟨some "solar", none, some (-2)⟩ []
      (-2) rfl (by decide)⟩

end ImageService
